import Mathlib

/-!
Verification of `pubmed_paper_fetcher` (`src/pubmed_paper_fetcher/fetch_papers.py`).

The Python module is shallowly embedded below:
* `AuthorRecord` models an author dictionary `{name, affiliation}` with
  optional string fields (absent key and `None` value both map to `none`);
* `Json` models parsed JSON / Python values, `pyGet` models `dict.get`
  (raising `AttributeError` on non-dicts);
* `Response` models an HTTP response: `status` plus `body = none` when the
  body is not parseable JSON;
* errors raised by the Python code are modelled with `Except PyError`.
-/

namespace PubMed

/-- A Python author dictionary as consumed by `identify_non_academic_authors`:
`name` and `affiliation` are optional strings (`none` models an absent key or a
`None` value, which behave identically under `dict.get(k, default)` falsiness). -/
structure AuthorRecord where
  name : Option String
  affiliation : Option String
deriving Repr, DecidableEq

/-- The `{"name": ..., "affiliation": ...}` dictionary that
`identify_non_academic_authors` appends for each flagged author.
The affiliation is a plain string because the code only appends truthy
(non-empty) affiliation strings. -/
structure NamedAff where
  name : Option String
  affiliation : String
deriving Repr, DecidableEq

/-- `needle.isPrefixOf hay` style substring test on character lists. -/
def hasSub (hay needle : List Char) : Bool :=
  if needle.isPrefixOf hay then true
  else
    match hay with
    | [] => false
    | _ :: t => hasSub t needle

/-- Case-insensitive substring containment, modelling
`re.search(keyword, s, re.IGNORECASE)` for a literal keyword. -/
def containsCI (hay needle : String) : Bool :=
  hasSub (hay.data.map Char.toLower) (needle.data.map Char.toLower)

/-- `re.search(r"university|college|institute|lab", s, re.IGNORECASE)` is not
`None` exactly when one of the four literals occurs case-insensitively in `s`. -/
def isKeywordHit (s : String) : Bool :=
  containsCI s "university" || containsCI s "college" ||
    containsCI s "institute" || containsCI s "lab"

/-- `identify_non_academic_authors` (fetch_papers.py lines 48-57):
for each author, `affiliation = author.get("affiliation", "")`;
the author is appended when `affiliation` is truthy (a non-empty string) and
the keyword regex does not match. -/
def identify_non_academic_authors : List AuthorRecord → List NamedAff
  | [] => []
  | author :: rest =>
    let affiliation := author.affiliation.getD ""
    if affiliation != "" && !isKeywordHit affiliation then
      ⟨author.name, affiliation⟩ :: identify_non_academic_authors rest
    else
      identify_non_academic_authors rest

/-- The condition under which `identify_non_academic_authors` keeps an author. -/
def keepAuthor (a : AuthorRecord) : Bool :=
  a.affiliation.getD "" != "" && !isKeywordHit (a.affiliation.getD "")

/-- The `{"name", "affiliation"}` pair `identify_non_academic_authors` emits. -/
def projAuthor (a : AuthorRecord) : NamedAff :=
  ⟨a.name, a.affiliation.getD ""⟩

/-- Parsed JSON / Python values: `null` models Python `None`, `obj` a dict
(association list with the first binding of a key authoritative, as dict keys
are unique), `arr` a list, `num` an integer. -/
inductive Json where
  | null
  | str (s : String)
  | num (n : Int)
  | arr (elems : List Json)
  | obj (entries : List (String × Json))
deriving Repr

/-- The Python exceptions the embedded code can raise. `transportError` covers
`requests.HTTPError` from `raise_for_status()` and a JSON-decode failure of
`response.json()`, the spec's `TransportError` taxonomy. -/
inductive PyError where
  | transportError
  | attributeError
  | typeError
deriving Repr, DecidableEq

/-- An HTTP response: `body = none` models a body that `response.json()`
cannot parse. -/
structure Response where
  status : Nat
  body : Option Json

/-- `x.get(key, default)` in Python: defined on dicts only; on any other
value the attribute lookup `.get` raises `AttributeError`. -/
def pyGet (j : Json) (key : String) (default : Json) : Except PyError Json :=
  match j with
  | .obj entries => .ok ((entries.lookup key).getD default)
  | _ => .error .attributeError

/-- `isinstance(x, dict)`. -/
def isDict : Json → Bool
  | .obj _ => true
  | _ => false

/-- `fetch_paper_ids` (lines 12-23): one GET against the search endpoint,
`raise_for_status()` (models as an error for status ≥ 400), `response.json()`
(error when unparseable), then `data.get("esearchresult", {}).get("idlist", [])`.
The returned value is whatever JSON sits at that path (the code does not
validate it is a list of strings). -/
def fetch_paper_ids (resp : Response) : Except PyError Json :=
  if 400 ≤ resp.status then .error .transportError
  else
    match resp.body with
    | none => .error .transportError
    | some data => do
      let esearchresult ← pyGet data "esearchresult" (.obj [])
      pyGet esearchresult "idlist" (.arr [])

/-- The `for paper_id in paper_ids` loop of `fetch_paper_details`
(lines 39-43): `paper_data = data.get("result", {}).get(paper_id, {})` is
appended when `isinstance(paper_data, dict)`. -/
def collectPapers (data : Json) : List String → Except PyError (List Json)
  | [] => .ok []
  | paper_id :: rest =>
    match pyGet data "result" (.obj []) with
    | .error e => .error e
    | .ok resultMap =>
      match pyGet resultMap paper_id (.obj []) with
      | .error e => .error e
      | .ok paper_data =>
        match collectPapers data rest with
        | .error e => .error e
        | .ok tail =>
          if isDict paper_data then .ok (paper_data :: tail) else .ok tail

/-- `fetch_paper_details` (lines 25-45). The second component of the result
counts network calls made (the `requests.get` on line 34): `0` on the
`if not paper_ids: return []` short-circuit, `1` otherwise. -/
def fetch_paper_details (paper_ids : List String) (resp : Response) :
    Except PyError (List Json × Nat) :=
  if paper_ids.isEmpty then .ok ([], 0)
  else if 400 ≤ resp.status then .error .transportError
  else
    match resp.body with
    | none => .error .transportError
    | some data => do
      let papers ← collectPapers data paper_ids
      .ok (papers, 1)

example : fetch_paper_details [] ⟨500, none⟩ = .ok ([], 0) := rfl

example :
    fetch_paper_details ["1", "2"]
      ⟨200, some (.obj [("result", .obj [("1", .obj [("uid", .str "1")])])])⟩ =
    .ok ([.obj [("uid", .str "1")], .obj []], 1) := rfl

example :
    fetch_paper_ids ⟨200, some (.obj [("esearchresult", .str "x")])⟩ =
      .error .attributeError := rfl

/-- `", ".join(xs)` raises `TypeError` as soon as an element is not a string;
a `None` name (absent `"name"` key in the upstream author dict) is such an
element. -/
def allStrings : List (Option String) → Except PyError (List String)
  | [] => .ok []
  | some s :: rest => do
    let tail ← allStrings rest
    .ok (s :: tail)
  | none :: _ => .error .typeError

/-- One row of the report, as built by the dict literal on lines 89-96.
`pubmedID`, `title`, `publicationDate` and `correspondingAuthorEmail` hold the
raw values of `paper.get(...)` (so `Json.null` when `"uid"` is absent). -/
structure ReportRow where
  pubmedID : Json
  title : Json
  publicationDate : Json
  nonAcademicAuthors : String
  companyAffiliations : String
  correspondingAuthorEmail : Json
deriving Repr

/-- The row construction of `main` (lines 89-96) for one paper and its
classified non-academic list:
`", ".join([a["name"] for a in non_academic_authors]) or "N/A"` and
`", ".join([a["affiliation"] for a in non_academic_authors]) or "N/A"`;
`x or "N/A"` keeps `x` exactly when it is a non-empty string. -/
def buildRow (paper : Json) (non_academic_authors : List NamedAff) :
    Except PyError ReportRow := do
  let uid ← pyGet paper "uid" Json.null
  let title ← pyGet paper "title" (Json.str "N/A")
  let pubdate ← pyGet paper "pubdate" (Json.str "N/A")
  let names ← allStrings (non_academic_authors.map NamedAff.name)
  let joinedNames := String.intercalate ", " names
  let joinedAffs := String.intercalate ", " (non_academic_authors.map NamedAff.affiliation)
  let email ← pyGet paper "corresponding_author" (Json.str "N/A")
  .ok ⟨uid, title, pubdate,
    if joinedNames != "" then joinedNames else "N/A",
    if joinedAffs != "" then joinedAffs else "N/A",
    email⟩

/-- Reads one upstream author dict into an `AuthorRecord`. A non-dict author
raises `AttributeError` at `author.get`. An absent key or a `None` value both
become `none`; a non-string non-`None` value is modelled as `TypeError` (for
the affiliation Python raises it inside `re.search` when the value is truthy;
for the name at the later `join`). -/
def toAuthor : Json → Except PyError AuthorRecord
  | .obj entries => do
    let name ← match entries.lookup "name" with
      | none => .ok none
      | some .null => .ok none
      | some (.str s) => .ok (some s)
      | some _ => .error .typeError
    let aff ← match entries.lookup "affiliation" with
      | none => .ok none
      | some .null => .ok none
      | some (.str s) => .ok (some s)
      | some _ => .error .typeError
    .ok ⟨name, aff⟩
  | _ => .error .attributeError

/-- `paper.get("authors", [])` must be iterable as a list of author dicts. -/
def toAuthors : Json → Except PyError (List AuthorRecord)
  | .arr elems => elems.mapM toAuthor
  | _ => .error .typeError

/-- The `for paper in papers` loop of `main` (lines 84-97): a non-dict paper is
skipped (`continue`); otherwise its authors are classified and a row appended. -/
def processPapers : List Json → Except PyError (List ReportRow)
  | [] => .ok []
  | paper :: rest =>
    if isDict paper then do
      let authorsJ ← pyGet paper "authors" (.arr [])
      let authors ← toAuthors authorsJ
      let row ← buildRow paper (identify_non_academic_authors authors)
      let tail ← processPapers rest
      .ok (row :: tail)
    else
      processPapers rest

/-- Python truthiness of a value, for `if not paper_ids:`. -/
def pyTruthy : Json → Bool
  | .null => false
  | .str s => s != ""
  | .num n => n != 0
  | .arr elems => !elems.isEmpty
  | .obj entries => !entries.isEmpty

/-- `",".join(paper_ids)` and `for paper_id in paper_ids` require a list of
strings. -/
def asStrList : Json → Except PyError (List String)
  | .arr elems => elems.mapM fun j =>
      match j with
      | .str s => Except.ok s
      | _ => Except.error PyError.typeError
  | _ => .error .typeError

/-- The parsed command line: the positional `query` and the optional
`-f` (long form `--file`) output path. -/
structure Args where
  query : String
  file : Option String

/-- The two upstream endpoints as the run will observe them: the search
response and the detail response. -/
structure World where
  searchResp : Response
  detailResp : Response

/-- The observable outcome of a normal `main` run: lines printed (other than
row dumps), rows printed to stdout, the file written with its rows, and how
many detail-endpoint network calls were made. -/
structure MainOutcome where
  printed : List String
  stdoutRows : List ReportRow
  fileWritten : Option (String × List ReportRow)
  detailCalls : Nat
deriving Repr

/-- `main` (lines 67-105): search, the `if not paper_ids` early return printing
"No papers found.", detail retrieval, per-paper row construction, then either
`write_to_csv` plus the "Results saved to ..." message or printing each row. -/
def main (args : Args) (w : World) : Except PyError MainOutcome := do
  let paperIdsJ ← fetch_paper_ids w.searchResp
  if !pyTruthy paperIdsJ then
    .ok ⟨["No papers found."], [], none, 0⟩
  else do
    let paper_ids ← asStrList paperIdsJ
    let fetched ← fetch_paper_details paper_ids w.detailResp
    let results ← processPapers fetched.1
    match args.file with
    | some f => .ok ⟨["Results saved to " ++ f], [], some (f, results), fetched.2⟩
    | none => .ok ⟨[], results, none, fetched.2⟩

example :
    main ⟨"cancer", some "out.csv"⟩
      ⟨⟨200, some (.obj [("esearchresult", .obj [("idlist", .arr [])])])⟩, ⟨200, none⟩⟩ =
    .ok ⟨["No papers found."], [], none, 0⟩ := rfl

example :
    buildRow (.obj [("uid", .str "1")]) [⟨none, "Acme Biotech Inc."⟩] =
      .error .typeError := rfl

example :
    buildRow (.obj []) [⟨some "", "Acme Biotech Inc."⟩] =
      .ok ⟨.null, .str "N/A", .str "N/A", "N/A", "Acme Biotech Inc.", .str "N/A"⟩ := rfl

/-- Unfolding lemma: one classification step is the `keepAuthor` test followed
by the `projAuthor` projection. -/
theorem identify_cons (a : AuthorRecord) (l : List AuthorRecord) :
    identify_non_academic_authors (a :: l) =
      if keepAuthor a then projAuthor a :: identify_non_academic_authors l
      else identify_non_academic_authors l := rfl

/-- Classification distributes over list append: each author is judged
independently of its neighbours. -/
theorem identify_append (xs ys : List AuthorRecord) :
    identify_non_academic_authors (xs ++ ys) =
      identify_non_academic_authors xs ++ identify_non_academic_authors ys := by
  induction xs with
  | nil => rfl
  | cons a rest ih =>
    rw [List.cons_append, identify_cons, identify_cons]
    by_cases h : keepAuthor a
    · rw [if_pos h, if_pos h, ih, List.cons_append]
    · rw [if_neg h, if_neg h, ih]

/-- Claim C1: an author whose affiliation is a non-empty string is excluded
from the non-academic output when the affiliation contains, case-insensitively,
one of the substrings "university", "college", "institute", "lab", and is
included otherwise, carrying the name as given and the affiliation text
unmodified — wherever the author sits in the input list. -/
theorem c1_keyword_classification (pre post : List AuthorRecord)
    (a : AuthorRecord) (s : String) (ha : a.affiliation = some s) (hs : s ≠ "") :
    identify_non_academic_authors (pre ++ a :: post) =
      identify_non_academic_authors pre ++
        (if isKeywordHit s then [] else [⟨a.name, s⟩]) ++
        identify_non_academic_authors post := by
  have hkeep : keepAuthor a = !isKeywordHit s := by
    simp [keepAuthor, ha, hs]
  have h1 : identify_non_academic_authors (a :: post) =
      (if isKeywordHit s then [] else [⟨a.name, s⟩]) ++
        identify_non_academic_authors post := by
    rw [identify_cons, hkeep]
    by_cases hk : isKeywordHit s
    · simp [hk]
    · simp [hk, projAuthor, ha]
  rw [identify_append, h1, List.append_assoc]

/-- Witness for C1 at the spec's scenario-B author "B" of "Acme Biotech Inc.". -/
theorem c1_witness :
    identify_non_academic_authors
        ([] ++ (⟨some "B", some "Acme Biotech Inc."⟩ : AuthorRecord) :: []) =
      identify_non_academic_authors [] ++
        (if isKeywordHit "Acme Biotech Inc." then []
         else [⟨some "B", "Acme Biotech Inc."⟩]) ++
        identify_non_academic_authors [] :=
  c1_keyword_classification [] [] ⟨some "B", some "Acme Biotech Inc."⟩
    "Acme Biotech Inc." rfl (by decide)

/-- Claim C2 counterexample: the author with the whitespace-only affiliation
" " is NOT excluded — `" "` is a truthy Python string with no keyword match,
so the author is flagged non-academic. -/
theorem c2_counterexample :
    identify_non_academic_authors [⟨some "A", some " "⟩] = [⟨some "A", " "⟩] ∧
    identify_non_academic_authors [⟨some "A", some " "⟩] ≠ [] :=
  ⟨by decide, by decide⟩

/-- Claim C2 (amended): an author whose affiliation is absent or the empty
string is excluded from the non-academic output regardless of name; a
whitespace-only affiliation, being a truthy non-empty string, is treated like
any other non-empty affiliation rather than excluded. -/
theorem c2_empty_absent_excluded (pre post : List AuthorRecord)
    (a : AuthorRecord) (h : a.affiliation = none ∨ a.affiliation = some "") :
    identify_non_academic_authors (pre ++ a :: post) =
      identify_non_academic_authors pre ++ identify_non_academic_authors post := by
  have hkeep : keepAuthor a = false := by
    rcases h with h | h <;> simp [keepAuthor, h]
  rw [identify_append, identify_cons, hkeep, if_neg (by simp)]

/-- Witness for C2 (amended): a named author with an absent affiliation is
dropped. -/
theorem c2_witness :
    identify_non_academic_authors
        ([⟨some "X", some "Acme Inc"⟩] ++ (⟨some "Anonymous", none⟩ : AuthorRecord) ::
          [⟨some "Y", some "Beta Corp"⟩]) =
      identify_non_academic_authors [⟨some "X", some "Acme Inc"⟩] ++
        identify_non_academic_authors [⟨some "Y", some "Beta Corp"⟩] :=
  c2_empty_absent_excluded [⟨some "X", some "Acme Inc"⟩] [⟨some "Y", some "Beta Corp"⟩]
    ⟨some "Anonymous", none⟩ (Or.inl rfl)

/-- Claim C5: classification is the order-preserving filter `keepAuthor`
followed by the projection `projAuthor`; in particular the output is a
sublist (order-preserving subsequence) of the projected input. -/
theorem c5_stability (authors : List AuthorRecord) :
    identify_non_academic_authors authors =
      (authors.filter keepAuthor).map projAuthor ∧
    List.Sublist (identify_non_academic_authors authors)
      (authors.map projAuthor) := by
  have key : ∀ l : List AuthorRecord,
      identify_non_academic_authors l = (l.filter keepAuthor).map projAuthor := by
    intro l
    induction l with
    | nil => rfl
    | cons a rest ih =>
      rw [identify_cons, List.filter_cons]
      by_cases h : keepAuthor a
      · rw [if_pos h, if_pos h, List.map_cons, ih]
      · rw [if_neg h, if_neg h, ih]
  refine ⟨key authors, ?_⟩
  rw [key authors]
  exact List.Sublist.map projAuthor (List.filter_sublist authors)

/-- Claim C6: detail retrieval on an empty id list returns the empty list and
makes no network call (call count 0), whatever the endpoint would answer. -/
theorem c6_empty_short_circuit (resp : Response) :
    fetch_paper_details [] resp = .ok ([], 0) := rfl

/-- The detail loop keeps, for each requested id in order, the entry of the
`result` map when it is a dict, substituting the `{}` default — itself a
dict — when the id is absent, and drops non-dict entries. -/
theorem collectPapers_spec (kvs rm : List (String × Json))
    (hres : kvs.lookup "result" = some (Json.obj rm)) (ids : List String) :
    collectPapers (Json.obj kvs) ids =
      .ok (ids.filterMap fun i =>
        if isDict ((rm.lookup i).getD (Json.obj [])) then
          some ((rm.lookup i).getD (Json.obj [])) else none) := by
  induction ids with
  | nil => rfl
  | cons i rest ih =>
    rw [List.filterMap_cons]
    simp only [collectPapers, pyGet, hres, Option.getD_some, ih]
    by_cases h : isDict ((rm.lookup i).getD (Json.obj []))
    · simp [h]
    · simp [h]

/-- Claim C3 counterexample: with ids `["1","2"]` and a detail response whose
result map holds a well-formed record only for `"1"`, the code returns TWO
records — the missing id `"2"` defaults to `{}`, which passes the
`isinstance(dict)` check and is appended as a placeholder — where the claim
requires exactly one. -/
theorem c3_counterexample :
    fetch_paper_details ["1", "2"]
        ⟨200, some (.obj [("result", .obj [("1", .obj [("uid", .str "1")])])])⟩ =
      .ok ([.obj [("uid", .str "1")], .obj []], 1) ∧
    ([Json.obj [("uid", Json.str "1")], Json.obj []] : List Json).length ≠ 1 :=
  ⟨rfl, by decide⟩

/-- Claim C3 (amended): for a non-empty id list and a successful response
whose body carries a `result` object, detail retrieval returns, in input id
order, the result-map entry for each id whose entry is a dict, an empty
placeholder record for each id whose entry is absent (the `{}` default passes
the dict check), and omits ids whose entry is present but not a dict. -/
theorem c3_detail_retrieval (ids : List String) (resp : Response)
    (kvs rm : List (String × Json)) (hne : ids ≠ [])
    (hstatus : resp.status < 400) (hbody : resp.body = some (Json.obj kvs))
    (hres : kvs.lookup "result" = some (Json.obj rm)) :
    fetch_paper_details ids resp =
      .ok (ids.filterMap (fun i =>
        if isDict ((rm.lookup i).getD (Json.obj [])) then
          some ((rm.lookup i).getD (Json.obj [])) else none), 1) := by
  have hni : ids.isEmpty = false := by
    cases ids with
    | nil => exact absurd rfl hne
    | cons a l => rfl
  unfold fetch_paper_details
  rw [hni, hbody, if_neg (by simp), if_neg (Nat.not_le.mpr hstatus)]
  simp only [collectPapers_spec kvs rm hres ids]
  rfl

/-- Witness for C3 (amended): id `"1"` resolves to its record, the missing id
`"2"` to the `{}` placeholder. -/
theorem c3_witness :
    fetch_paper_details ["1", "2"]
        ⟨200, some (.obj [("result", .obj [("1", .obj [("uid", .str "1")])])])⟩ =
      .ok ((["1", "2"].filterMap fun i =>
        if isDict (([("1", Json.obj [("uid", Json.str "1")])].lookup i).getD (Json.obj [])) then
          some (([("1", Json.obj [("uid", Json.str "1")])].lookup i).getD (Json.obj []))
        else none), 1) :=
  c3_detail_retrieval ["1", "2"]
    ⟨200, some (.obj [("result", .obj [("1", .obj [("uid", .str "1")])])])⟩
    [("result", Json.obj [("1", Json.obj [("uid", Json.str "1")])])]
    [("1", Json.obj [("uid", Json.str "1")])]
    (by decide) (by decide) rfl rfl

/-- `Except` bind on a success value reduces to the continuation. -/
theorem bindOk {α β : Type} (a : α) (f : α → Except PyError β) :
    (Except.ok a : Except PyError α) >>= f = f a := rfl

/-- Claim C4 counterexample: a non-empty non-academic list whose single author
has the empty string as name renders the Non-academic Authors field as "N/A",
not as the joined value `""` the claim requires for non-empty lists. -/
theorem c4_counterexample :
    buildRow (Json.obj []) [⟨some "", "Acme Biotech Inc."⟩] =
      .ok ⟨.null, .str "N/A", .str "N/A", "N/A", "Acme Biotech Inc.", .str "N/A"⟩ ∧
    String.intercalate ", " [""] = "" ∧ ("N/A" : String) ≠ "" :=
  ⟨rfl, rfl, by decide⟩

/-- Claim C4 (amended): when every classified author carries a string name,
the row's Non-academic Authors and Company Affiliations fields are the names
(resp. affiliations) joined with ", " when that joined string is non-empty and
the literal "N/A" otherwise; an empty list always joins to "" and so always
renders "N/A" in both fields. -/
theorem c4_join_or_na (kvs : List (String × Json)) (l : List NamedAff)
    (names : List String) (h : allStrings (l.map NamedAff.name) = .ok names) :
    buildRow (Json.obj kvs) l = .ok
      ⟨(kvs.lookup "uid").getD Json.null,
       (kvs.lookup "title").getD (Json.str "N/A"),
       (kvs.lookup "pubdate").getD (Json.str "N/A"),
       if String.intercalate ", " names != "" then
         String.intercalate ", " names else "N/A",
       if String.intercalate ", " (l.map NamedAff.affiliation) != "" then
         String.intercalate ", " (l.map NamedAff.affiliation) else "N/A",
       (kvs.lookup "corresponding_author").getD (Json.str "N/A")⟩ ∧
    (l = [] →
      (if String.intercalate ", " names != "" then
        String.intercalate ", " names else "N/A") = "N/A" ∧
      (if String.intercalate ", " (l.map NamedAff.affiliation) != "" then
        String.intercalate ", " (l.map NamedAff.affiliation) else "N/A") = "N/A") := by
  constructor
  · unfold buildRow
    rw [h]
    rfl
  · intro hl
    subst hl
    have hn : names = [] := by
      have h2 := h
      simp only [List.map_nil] at h2
      exact (Except.ok.injEq _ _).mp h2.symm
    subst hn
    exact ⟨rfl, rfl⟩

/-- Witness for C4 (amended) at a one-author list with a non-empty name. -/
theorem c4_witness :
    buildRow (Json.obj []) [⟨some "B", "Acme Inc"⟩] =
      .ok ⟨Json.null, Json.str "N/A", Json.str "N/A", "B", "Acme Inc", Json.str "N/A"⟩ :=
  (c4_join_or_na [] [⟨some "B", "Acme Inc"⟩] ["B"] rfl).1

/-- Claim C7 counterexample: a success response whose body is an object in
which "esearchresult" maps to a string lacks the `esearchresult.idlist` path,
yet `data.get("esearchresult", {}).get("idlist", [])` raises `AttributeError`
on the string instead of returning an empty id list. -/
theorem c7_counterexample :
    fetch_paper_ids ⟨200, some (.obj [("esearchresult", .str "x")])⟩ =
      .error .attributeError ∧
    (Except.error PyError.attributeError : Except PyError Json) ≠
      .ok (Json.arr []) :=
  ⟨rfl, fun hc => Except.noConfusion hc⟩

/-- Claim C7 (amended): search fails with the transport error on a non-success
HTTP status; on a success status with an object body it returns the empty id
list whenever "esearchresult" is absent, or present as an object lacking
"idlist" — but an "esearchresult" entry that is not an object raises
`AttributeError` rather than yielding the empty list. -/
theorem c7_search_errors :
    (∀ resp : Response, 400 ≤ resp.status →
      fetch_paper_ids resp = .error .transportError) ∧
    (∀ (resp : Response) (kvs : List (String × Json)),
      resp.status < 400 → resp.body = some (Json.obj kvs) →
      (kvs.lookup "esearchresult" = none ∨
        ∃ inner, kvs.lookup "esearchresult" = some (Json.obj inner) ∧
          inner.lookup "idlist" = none) →
      fetch_paper_ids resp = .ok (Json.arr [])) := by
  constructor
  · intro resp h
    unfold fetch_paper_ids
    rw [if_pos h]
  · intro resp kvs hstatus hbody hpath
    unfold fetch_paper_ids
    rw [if_neg (Nat.not_le.mpr hstatus), hbody]
    rcases hpath with h | ⟨inner, h1, h2⟩
    · simp [pyGet, h, bindOk]
    · simp [pyGet, h1, h2, bindOk]

/-- Witness for C7 (amended): a 404 response errors; a 200 response with an
empty object body yields the empty id list. -/
theorem c7_witness :
    fetch_paper_ids ⟨404, none⟩ = .error .transportError ∧
    fetch_paper_ids ⟨200, some (Json.obj [])⟩ = .ok (Json.arr []) :=
  ⟨c7_search_errors.1 ⟨404, none⟩ (by decide),
   c7_search_errors.2 ⟨200, some (Json.obj [])⟩ [] (by decide) rfl (Or.inl rfl)⟩

/-- Claim C8: whenever search yields the empty id list, `main` prints
"No papers found." and terminates normally with no rows, no detail-endpoint
call, and no file written — whatever the command line (including `-f`) and
whatever the detail endpoint would have answered. -/
theorem c8_no_papers (args : Args) (w : World)
    (h : fetch_paper_ids w.searchResp = .ok (Json.arr [])) :
    main args w = .ok ⟨["No papers found."], [], none, 0⟩ := by
  unfold main
  rw [h]
  rfl

/-- Witness for C8 with `-f out.csv` supplied and an empty `idlist`. -/
theorem c8_witness :
    main ⟨"cancer", some "out.csv"⟩
        ⟨⟨200, some (.obj [("esearchresult", .obj [("idlist", .arr [])])])⟩,
         ⟨200, none⟩⟩ =
      .ok ⟨["No papers found."], [], none, 0⟩ :=
  c8_no_papers ⟨"cancer", some "out.csv"⟩
    ⟨⟨200, some (.obj [("esearchresult", .obj [("idlist", .arr [])])])⟩,
     ⟨200, none⟩⟩ rfl

/-- Claim C9: a non-academic author whose name key is absent is classified
with a `None` name, and the `", ".join` of the row construction then raises
`TypeError` instead of producing a row — shown on the classification output,
on `buildRow`, and end-to-end on the paper loop. -/
theorem c9_none_name_raises :
    identify_non_academic_authors [⟨none, some "Acme Biotech Inc."⟩] =
      [⟨none, "Acme Biotech Inc."⟩] ∧
    buildRow (Json.obj [("uid", Json.str "7")]) [⟨none, "Acme Biotech Inc."⟩] =
      .error .typeError ∧
    processPapers [Json.obj [("uid", Json.str "7"),
        ("authors", Json.arr [Json.obj [("affiliation", Json.str "Acme Biotech Inc.")]])]] =
      .error .typeError :=
  ⟨by decide, rfl, rfl⟩

/-- Claim C10: "N/A" is decided by emptiness of the joined string, not of the
list — a singleton non-academic list whose author has the empty string as name
still renders Non-academic Authors as "N/A", although the list is non-empty
(its Company Affiliations field shows the affiliation). -/
theorem c10_na_from_empty_join :
    identify_non_academic_authors [⟨some "", some "Pfizer Inc"⟩] =
      [⟨some "", "Pfizer Inc"⟩] ∧
    buildRow (Json.obj []) [⟨some "", "Pfizer Inc"⟩] =
      .ok ⟨.null, .str "N/A", .str "N/A", "N/A", "Pfizer Inc", .str "N/A"⟩ ∧
    ([⟨some "", "Pfizer Inc"⟩] : List NamedAff) ≠ [] :=
  ⟨by decide, rfl, by decide⟩

end PubMed
